import Mathlib

/-!
# Verification of the Bolt v3 session-layer protocol engine

Shallow embedding of the async Bolt v3 driver core (file `neo4j/aio/bolt/v3.py`):
the Courier (message writer / reply dispatcher with its outstanding-response
queue), Response (record FIFO plus terminal summary slot), Result, Transaction
and Bolt3 connection layers, together with theorems settling the specification
claims about them.

Python mutable state is modelled by explicit state passing.  A `CourierState`
carries the outstanding-response queue (a list of response identifiers plus a
store mapping identifiers to `Response` values), the pending inbound server
messages, and the outbound / flushed client message logs.  Awaiting transport
input that never arrives (a blocked `await`) is modelled by explicit
`starved` / `stuck` outcomes.  Exceptions are modelled as outcome constructors.
-/

namespace Bolt3V3

/-- Packstream-level values appearing in records, metadata maps and extras. -/
inductive Val where
  | s (v : String)
  | i (v : Int)
  | list (vs : List Val)
  | map (entries : List (String × Val))
  | null
deriving Repr

/-- `metadata.get(key)`: first-match lookup in an association list,
mirroring a Python dict read (keys in our metadata lists are distinct). -/
def mdLookup (md : List (String × Val)) (k : String) : Option Val :=
  match md with
  | [] => none
  | (k2, v) :: rest => if k2 == k then some v else mdLookup rest k

/-- `metadata.get(key, default)`. -/
def mdLookupD (md : List (String × Val)) (k : String) (dflt : Val) : Val :=
  (mdLookup md k).getD dflt

/-- Server-to-client messages, as classified by `Courier._read`:
SUCCESS (0x70), RECORD (0x71), IGNORED (0x7E), FAILURE (0x7F); `illegal`
stands for a non-Structure payload or an unrecognised tag, on which
`_read` raises `BoltError`. -/
inductive SrvMsg where
  | success (md : List (String × Val))
  | record (data : List Val)
  | ignored
  | failure (md : List (String × Val))
  | illegal
deriving Repr

/-- Client-to-server messages written by the Courier's `write_<op>` methods. -/
inductive CliMsg where
  | hello (extras : List (String × Val))
  | goodbye
  | reset
  | run (cypher : String) (parameters : List (String × Val)) (extras : List (String × Val))
  | begin (extras : List (String × Val))
  | commit
  | rollback
  | discardAll
  | pullAll
deriving Repr

/-- A value stored in a Response's summary slot by `put_summary`: either a
`Summary(metadata, success)` object or the `Ignored` sentinel. -/
inductive RSummary where
  | summary (md : List (String × Val)) (success : Bool)
  | ignoredS
deriving Repr

/-- The mutable state of a `Response` object: the record FIFO (`_records`,
appended at the back, popped at the front) and the summary slot (`_summary`,
initially `None`). -/
structure Response where
  records : List (List Val)
  summary : Option RSummary
deriving Repr

/-- The data carried by a raised `BoltFailure(message, remote_address, code,
response)`; the Response object argument is identified by its id. -/
structure BFailure where
  message : Option Val
  remote : String
  code : Option Val
  responseId : Nat
deriving Repr

/-- State of a `Courier` (plus its transport): `queue` is `self.responses`
(ids into `store`), `next` is the next fresh response id, `input` the pending
inbound server messages, `outbound` the buffered unflushed client messages,
`sentLog` the flushed ones, `fetchCalls` counts invocations of `fetch`
(instrumentation used to observe whether an operation drives the network),
and `remote` is `self.remote_address`. -/
structure CourierState where
  queue : List Nat
  store : Nat → Response
  next : Nat
  input : List SrvMsg
  outbound : List CliMsg
  sentLog : List CliMsg
  fetchCalls : Nat
  remote : String

/-- Pointwise update of the response store at one id. -/
def upd (st : Nat → Response) (i : Nat) (r : Response) : Nat → Response :=
  fun j => if j = i then r else st j

/-- `Courier._write(message)`: buffer the message, append a fresh Response
(empty record FIFO, no summary) to the queue, and return it (its id). -/
def CourierState.writeMsg (s : CourierState) (m : CliMsg) : Nat × CourierState :=
  (s.next,
   { s with
     outbound := s.outbound ++ [m]
     queue := s.queue ++ [s.next]
     store := upd s.store s.next { records := [], summary := none }
     next := s.next + 1 })

/-- `Courier.send()`: flush the outbound buffer to the wire. -/
def CourierState.send (s : CourierState) : CourierState :=
  { s with sentLog := s.sentLog ++ s.outbound, outbound := [] }

/-- Outcome of `Courier.fetch`: normal return, blocked forever awaiting input
(`starved`), raised `BoltFailure`, or raised `BoltError` (illegal message). -/
inductive FetchOutcome where
  | ok (s : CourierState)
  | starved (s : CourierState)
  | boltFailure (f : BFailure) (s : CourierState)
  | boltError (s : CourierState)

/-- The Courier state carried by a fetch outcome. -/
def FetchOutcome.st : FetchOutcome → CourierState
  | .ok s => s
  | .starved s => s
  | .boltFailure _ s => s
  | .boltError s => s

/-- The loop body of `Courier.fetch`: `while self.responses and not stop()`,
read one message (`_read`) and dispatch it:
a RECORD is appended to the head Response; SUCCESS / IGNORED / FAILURE are
assigned as the head Response's summary and dequeue it; a FAILURE additionally
raises `BoltFailure(metadata.get("message"), remote_address,
metadata.get("code"), response)`; an illegal message raises `BoltError`.
The pending input is threaded as an explicit argument (structural recursion);
`s.input` is resynchronised at every exit. -/
def fetchLoop (stop : (Nat → Response) → Bool) :
    List SrvMsg → CourierState → FetchOutcome
  | [], s =>
    match s.queue with
    | [] => .ok { s with input := [] }
    | _ :: _ =>
      if stop s.store then .ok { s with input := [] }
      else .starved { s with input := [] }
  | m :: rest, s =>
    match s.queue with
    | [] => .ok { s with input := m :: rest }
    | h :: t =>
      if stop s.store then .ok { s with input := m :: rest }
      else
        match m with
        | .record data =>
            let r := s.store h
            fetchLoop stop rest
              { s with store := upd s.store h { r with records := r.records ++ [data] } }
        | .success md =>
            let r := s.store h
            fetchLoop stop rest
              { s with queue := t,
                       store := upd s.store h { r with summary := some (.summary md true) } }
        | .ignored =>
            let r := s.store h
            fetchLoop stop rest
              { s with queue := t,
                       store := upd s.store h { r with summary := some .ignoredS } }
        | .failure md =>
            let r := s.store h
            .boltFailure
              { message := mdLookup md "message", remote := s.remote,
                code := mdLookup md "code", responseId := h }
              { s with queue := t,
                       store := upd s.store h { r with summary := some (.summary md false) },
                       input := rest }
        | .illegal => .boltError { s with input := rest }

/-- `Courier.fetch(stop)`.  The `fetchCalls` counter is bumped once per
invocation. -/
def CourierState.fetch (s : CourierState) (stop : (Nat → Response) → Bool) :
    FetchOutcome :=
  fetchLoop stop s.input { s with fetchCalls := s.fetchCalls + 1 }

/-- The always-false stop predicate modelling the default `stop=lambda: None`. -/
def noStop : (Nat → Response) → Bool := fun _ => false

/-- Stop predicate of `Response.get_record` as written in the source:
`lambda: bool(self._records)` — the record FIFO of response `i` is non-empty. -/
def stopRecords (i : Nat) : (Nat → Response) → Bool :=
  fun st => !(st i).records.isEmpty

/-- Stop predicate of `Response.get_summary`:
`lambda: self._summary is not None`. -/
def stopSummary (i : Nat) : (Nat → Response) → Bool :=
  fun st => (st i).summary.isSome

/-- Outcome of `Response.get_record`: a popped record, the `None` end-of-records
marker, a raised `BoltFailure` / `BoltError` propagated out of `fetch`, or
divergence (the loop can never be satisfied / the read blocks forever). -/
inductive GetRecOutcome where
  | record (values : List Val) (s : CourierState)
  | endOfRecords (s : CourierState)
  | failureOut (f : BFailure) (s : CourierState)
  | errorOut (s : CourierState)
  | stuckOut (s : CourierState)

/-- The Courier state carried by a `get_record` outcome. -/
def GetRecOutcome.st : GetRecOutcome → CourierState
  | .record _ s => s
  | .endOfRecords s => s
  | .failureOut _ s => s
  | .errorOut s => s
  | .stuckOut s => s

/-- Whether a `get_record` outcome is the end-of-records `None` marker. -/
def GetRecOutcome.isEnd : GetRecOutcome → Bool
  | .endOfRecords _ => true
  | _ => false

/-- The `while True` loop of `Response.get_record`, parametrised by the stop
predicate it hands to `fetch` (the source's is `stopRecords i`): try to pop the
front of the FIFO; on `IndexError`, if the summary slot is empty drive `fetch`
and retry, else return `None`.  The loop is run on explicit fuel; an exhausted
fuel means the loop was spinning without consuming input (the real coroutine
blocks forever in that situation), reported as `stuckOut`. -/
def getRecordLoop (stop : Nat → (Nat → Response) → Bool) :
    Nat → Nat → CourierState → GetRecOutcome
  | 0, _, s => .stuckOut s
  | fuel + 1, i, s =>
    match (s.store i).records with
    | v :: rs =>
        let r := s.store i
        .record v { s with store := upd s.store i { r with records := rs } }
    | [] =>
      if (s.store i).summary.isSome then .endOfRecords s
      else
        match s.fetch (stop i) with
        | .ok s2 => getRecordLoop stop fuel i s2
        | .starved s2 => .stuckOut s2
        | .boltFailure f s2 => .failureOut f s2
        | .boltError s2 => .errorOut s2

/-- `Response.get_record()` on response `i`, with the source's stop predicate
`lambda: bool(self._records)`.  The fuel `s.input.length + 2` dominates every
terminating run: each productive loop iteration consumes at least one inbound
message, so exhausting the fuel only happens on genuinely diverging runs. -/
def getRecord (i : Nat) (s : CourierState) : GetRecOutcome :=
  getRecordLoop stopRecords (s.input.length + 2) i s

/-- Modelled from the spec's words (for refinement comparison with
`getRecord`): the same `get_record` loop but driving `fetch` with the spec's
stated stop predicate "records present OR summary present" instead of the
source's "records present". -/
def stopRecordsOrSummary (i : Nat) : (Nat → Response) → Bool :=
  fun st => !(st i).records.isEmpty || (st i).summary.isSome

/-- Modelled from the spec's words: `get_record` with the spec's stop
predicate (see `stopRecordsOrSummary`). -/
def getRecordSpec (i : Nat) (s : CourierState) : GetRecOutcome :=
  getRecordLoop stopRecordsOrSummary (s.input.length + 2) i s

/-- Outcome of `Response.get_summary`: the returned summary-slot value (which
is `None` when the queue emptied without this response's summary arriving),
or a raised/blocked fetch. -/
inductive SummaryOutcome where
  | value (v : Option RSummary) (s : CourierState)
  | failureOut (f : BFailure) (s : CourierState)
  | errorOut (s : CourierState)
  | stuckOut (s : CourierState)

/-- The Courier state carried by a `get_summary` outcome. -/
def SummaryOutcome.st : SummaryOutcome → CourierState
  | .value _ s => s
  | .failureOut _ s => s
  | .errorOut s => s
  | .stuckOut s => s

/-- `Response.get_summary()` on response `i`: one `fetch` with stop predicate
`lambda: self._summary is not None`, then return the summary slot. -/
def getSummary (i : Nat) (s : CourierState) : SummaryOutcome :=
  match s.fetch (stopSummary i) with
  | .ok s2 => .value ((s2.store i).summary) s2
  | .starved s2 => .stuckOut s2
  | .boltFailure f s2 => .failureOut f s2
  | .boltError s2 => .errorOut s2

/-- Python `int(...)` applied to an exact rational: truncation toward zero
(`int(1000 * timeout)` in `Transaction.__init__`). -/
def truncToInt (q : ℚ) : Int :=
  if q < 0 then -(Int.ofNat ((-q).num.toNat / (-q).den))
  else Int.ofNat (q.num.toNat / q.den)

/-- Python truthiness of the `bookmarks` argument (`None` or an empty iterable
is falsy, a non-empty one truthy). -/
def bkTruthy : Option (List String) → Bool
  | none => false
  | some [] => false
  | some (_ :: _) => true

/-- The `extras` map built by `Transaction.__init__` through its `_add_extra`
calls, in insertion order: `mode` = "R" only when `readonly` is truthy;
`bookmarks` = the list only when non-empty; `tx_timeout` = `int(1000 *
timeout)` only when `timeout` is truthy (non-zero); `tx_metadata` = the
mapping only when non-empty. -/
def mkExtras (readonly : Bool) (bookmarks : Option (List String)) (timeout : Option ℚ)
    (metadata : Option (List (String × Val))) : List (String × Val) :=
  (if readonly then [("mode", Val.s "R")] else [])
  ++ (match bookmarks with
      | some (b :: bs) => [("bookmarks", Val.list ((b :: bs).map Val.s))]
      | _ => [])
  ++ (match timeout with
      | some q => if q = 0 then [] else [("tx_timeout", Val.i (truncToInt (1000 * q)))]
      | none => [])
  ++ (match metadata with
      | some (e :: es) => [("tx_metadata", Val.map (e :: es))]
      | _ => [])

/-- State of a `Transaction` object: `_autocommit`, `_closed`, `_failure`
slot and the `_extras` map. -/
structure Transaction where
  autocommit : Bool
  closed : Bool
  failure : Option BFailure
  extras : List (String × Val)

/-- `Transaction.__init__`: open, auto-commit by default, empty failure slot,
extras built by `mkExtras`. -/
def Transaction.make (readonly : Bool) (bookmarks : Option (List String))
    (timeout : Option ℚ) (metadata : Option (List (String × Val))) : Transaction :=
  { autocommit := true, closed := false, failure := none,
    extras := mkExtras readonly bookmarks timeout metadata }

/-- Outcome of `Transaction.fail(failure)`: `raised` re-raises the (just
stored) failure after the RESET round-trip; `returned` is the no-op path
(failure slot already populated); `fetchFailure` / `fetchError` propagate an
exception raised by the inner RESET `fetch` (in which case neither `_closed`
nor `_failure` were assigned); `stuck` models a blocked inner fetch. -/
inductive FailOutcome where
  | raised (f : BFailure) (tx : Transaction) (s : CourierState)
  | returned (tx : Transaction) (s : CourierState)
  | fetchFailure (g : BFailure) (tx : Transaction) (s : CourierState)
  | fetchError (tx : Transaction) (s : CourierState)
  | stuck (tx : Transaction) (s : CourierState)

/-- `Transaction.fail(failure)`: `if not self._failure:` write RESET, `send()`,
`fetch()`, set `_closed`, store the failure and re-raise it; otherwise fall
through (return `None`). -/
def Transaction.fail (tx : Transaction) (s : CourierState) (f : BFailure) : FailOutcome :=
  if tx.failure.isSome then .returned tx s
  else
    let s1 := (s.writeMsg .reset).2
    let s2 := s1.send
    match s2.fetch noStop with
    | .ok s3 => .raised f { tx with closed := true, failure := some f } s3
    | .starved s3 => .stuck tx s3
    | .boltFailure g s3 => .fetchFailure g tx s3
    | .boltError s3 => .fetchError tx s3

/-- Outcome of the classmethod `Transaction.begin`. -/
inductive BeginOutcome where
  | ok (tx : Transaction) (s : CourierState)
  | fetchFailure (g : BFailure) (s : CourierState)
  | fetchError (s : CourierState)
  | stuckB (s : CourierState)

/-- The Courier state carried by a `Transaction.begin` outcome. -/
def BeginOutcome.st : BeginOutcome → CourierState
  | .ok _ s => s
  | .fetchFailure _ s => s
  | .fetchError s => s
  | .stuckB s => s

/-- `Transaction.begin` (classmethod): construct the transaction, clear its
auto-commit flag, write BEGIN(extras); `if bookmarks:` eagerly `send()` and
`fetch()` (default stop predicate), else return with the write still
buffered. -/
def Transaction.beginTx (s : CourierState) (readonly : Bool)
    (bookmarks : Option (List String)) (timeout : Option ℚ)
    (metadata : Option (List (String × Val))) : BeginOutcome :=
  let tx0 := Transaction.make readonly bookmarks timeout metadata
  let tx := { tx0 with autocommit := false }
  let s1 := (s.writeMsg (.begin tx.extras)).2
  if bkTruthy bookmarks then
    let s2 := s1.send
    match s2.fetch noStop with
    | .ok s3 => .ok tx s3
    | .starved s3 => .stuckB s3
    | .boltFailure g s3 => .fetchFailure g s3
    | .boltError s3 => .fetchError s3
  else .ok tx s1

/-- Outcome of `Transaction.run`: on success it carries the ids of the two
Responses backing the returned Result (head = RUN, body = PULL_ALL or
DISCARD_ALL) and the updated transaction. -/
inductive TxRunOutcome where
  | ok (head body : Nat) (tx : Transaction) (s : CourierState)
  | txError (tx : Transaction) (s : CourierState)

/-- `Transaction.run(cypher, parameters, discard)`: assert open; write
RUN(cypher, parameters, extras-if-autocommit-else-empty); write DISCARD_ALL
or PULL_ALL; if auto-commit, `send()` and close on the way out; return the
Result handles. -/
def Transaction.runQ (tx : Transaction) (s : CourierState) (cypher : String)
    (parameters : List (String × Val)) (discard : Bool) : TxRunOutcome :=
  if tx.closed then .txError tx s
  else
    let w1 := s.writeMsg (.run cypher parameters (if tx.autocommit then tx.extras else []))
    let w2 := w1.2.writeMsg (if discard then .discardAll else .pullAll)
    if tx.autocommit then
      .ok w1.1 w2.1 { tx with closed := true } w2.2.send
    else
      .ok w1.1 w2.1 tx w2.2

/-- Outcome of `Transaction.commit` / `Transaction.rollback`: `ok` carries
the bookmark metadata value for commit (`none` for rollback); `txError` is
the `BoltTransactionError` on a closed or auto-commit transaction. -/
inductive CommitOutcome where
  | ok (bookmark : Option Val) (tx : Transaction) (s : CourierState)
  | txError (tx : Transaction) (s : CourierState)
  | raisedFailure (g : BFailure) (tx : Transaction) (s : CourierState)
  | raisedOther (tx : Transaction) (s : CourierState)
  | stuck (tx : Transaction) (s : CourierState)

/-- `Transaction.commit()`: assert open; reject auto-commit; write COMMIT,
`send()`, `fetch()`, read the COMMIT response's summary and extract the
`bookmark` metadata entry; `_closed` is set on every exit path of the
`try` block. -/
def Transaction.commitT (tx : Transaction) (s : CourierState) : CommitOutcome :=
  if tx.closed then .txError tx s
  else if tx.autocommit then .txError tx s
  else
    let w := s.writeMsg .commit
    let s2 := w.2.send
    match s2.fetch noStop with
    | .ok s3 =>
        match getSummary w.1 s3 with
        | .value (some (.summary md _)) s4 =>
            .ok (mdLookup md "bookmark") { tx with closed := true } s4
        | .value _ s4 => .raisedOther { tx with closed := true } s4
        | .failureOut g s4 => .raisedFailure g { tx with closed := true } s4
        | .errorOut s4 => .raisedOther { tx with closed := true } s4
        | .stuckOut s4 => .stuck { tx with closed := true } s4
    | .boltFailure g s3 => .raisedFailure g { tx with closed := true } s3
    | .boltError s3 => .raisedOther { tx with closed := true } s3
    | .starved s3 => .stuck { tx with closed := true } s3

/-- `Transaction.rollback()`: assert open; reject auto-commit; write ROLLBACK,
`send()`, `fetch()`; `_closed` is set on every exit path. -/
def Transaction.rollbackT (tx : Transaction) (s : CourierState) : CommitOutcome :=
  if tx.closed then .txError tx s
  else if tx.autocommit then .txError tx s
  else
    let s1 := (s.writeMsg .rollback).2
    let s2 := s1.send
    match s2.fetch noStop with
    | .ok s3 => .ok none { tx with closed := true } s3
    | .boltFailure g s3 => .raisedFailure g { tx with closed := true } s3
    | .boltError s3 => .raisedOther { tx with closed := true } s3
    | .starved s3 => .stuck { tx with closed := true } s3

/-- Outcome of `Result.get_header` / `Result.consume`: `value` is the returned
object — note `value none` arises both when `get_summary` legitimately returns
`None` and when a caught `BoltFailure` was swallowed by a no-op
`Transaction.fail` (the method then falls off the end and returns `None`). -/
inductive HeaderOutcome where
  | value (v : Option RSummary) (tx : Transaction) (s : CourierState)
  | raisedFailure (f : BFailure) (tx : Transaction) (s : CourierState)
  | raisedFetch (tx : Transaction) (s : CourierState)
  | raisedError (tx : Transaction) (s : CourierState)
  | stuck (tx : Transaction) (s : CourierState)

/-- The shared body of `Result.get_header` and `Result.consume`:
`try: await response.get_summary() except BoltFailure as failure:
await self._tx.fail(failure) else: return summary`. -/
def summaryViaFail (tx : Transaction) (i : Nat) (s : CourierState) : HeaderOutcome :=
  match getSummary i s with
  | .value v s2 => .value v tx s2
  | .failureOut f s2 =>
      match tx.fail s2 f with
      | .raised g tx2 s3 => .raisedFailure g tx2 s3
      | .returned tx2 s3 => .value none tx2 s3
      | .fetchFailure _ tx2 s3 => .raisedFetch tx2 s3
      | .fetchError tx2 s3 => .raisedError tx2 s3
      | .stuck tx2 s3 => .stuck tx2 s3
  | .errorOut s2 => .raisedError tx s2
  | .stuckOut s2 => .stuck tx s2

/-- `Result.get_header()`: `summaryViaFail` on the head (RUN) response. -/
def Result.getHeaderF (tx : Transaction) (headId : Nat) (s : CourierState) : HeaderOutcome :=
  summaryViaFail tx headId s

/-- `Result.consume()`: `summaryViaFail` on the body (PULL_ALL / DISCARD_ALL)
response. -/
def Result.consumeF (tx : Transaction) (bodyId : Nat) (s : CourierState) : HeaderOutcome :=
  summaryViaFail tx bodyId s

/-- Outcome of `Result.fields()`: `ok` carries
`header.metadata.get("fields", ())`; `attrError` models the `AttributeError`
hit when the header object is `None` or the `Ignored` sentinel (neither has a
`metadata` attribute). -/
inductive FieldsOutcome where
  | ok (v : Val) (tx : Transaction) (s : CourierState)
  | attrError (tx : Transaction) (s : CourierState)
  | raisedFailure (f : BFailure) (tx : Transaction) (s : CourierState)
  | raisedFetch (tx : Transaction) (s : CourierState)
  | raisedError (tx : Transaction) (s : CourierState)
  | stuck (tx : Transaction) (s : CourierState)

/-- The returned fields value of a `Result.fields` outcome, when any. -/
def FieldsOutcome.val : FieldsOutcome → Option Val
  | .ok v _ _ => some v
  | _ => none

/-- The Courier state carried by a `Result.fields` outcome. -/
def FieldsOutcome.st : FieldsOutcome → CourierState
  | .ok _ _ s => s
  | .attrError _ s => s
  | .raisedFailure _ _ s => s
  | .raisedFetch _ s => s
  | .raisedError _ s => s
  | .stuck _ s => s

/-- `Result.fields()`: `header = await self.get_header();
return header.metadata.get("fields", ())` — resolved against the head
response on every call (the source keeps no cache). -/
def Result.fieldsF (tx : Transaction) (headId : Nat) (s : CourierState) : FieldsOutcome :=
  match Result.getHeaderF tx headId s with
  | .value (some (.summary md _)) tx2 s2 => .ok (mdLookupD md "fields" (Val.list [])) tx2 s2
  | .value (some .ignoredS) tx2 s2 => .attrError tx2 s2
  | .value none tx2 s2 => .attrError tx2 s2
  | .raisedFailure f tx2 s2 => .raisedFailure f tx2 s2
  | .raisedFetch tx2 s2 => .raisedFetch tx2 s2
  | .raisedError tx2 s2 => .raisedError tx2 s2
  | .stuck tx2 s2 => .stuck tx2 s2

/-- Outcome of one `Result.__anext__()` step of async iteration:
`yielded` hands a zipped Record to the consumer; `yieldedNone` is the implicit
`return None` path (the `except` branch ran and `Transaction.fail` was a
no-op), which the consumer receives as a yielded `None` element — NOT a
`StopAsyncIteration`; `stopIter` raises `StopAsyncIteration`. -/
inductive AnextOutcome where
  | yielded (rec : List (Val × Val)) (tx : Transaction) (s : CourierState)
  | yieldedNone (tx : Transaction) (s : CourierState)
  | stopIter (tx : Transaction) (s : CourierState)
  | raisedFailure (f : BFailure) (tx : Transaction) (s : CourierState)
  | raisedFetch (tx : Transaction) (s : CourierState)
  | raisedError (tx : Transaction) (s : CourierState)
  | stuck (tx : Transaction) (s : CourierState)

/-- `Result.__anext__()`: `try: values = await self._body.get_record()` —
on `BoltFailure`, `await self._tx.fail(failure)` and fall off the end
(yielding `None`); on `None`, raise `StopAsyncIteration`; otherwise return
`Record(zip(await self.fields(), values))`. -/
def Result.anext (tx : Transaction) (headId bodyId : Nat) (s : CourierState) : AnextOutcome :=
  match getRecord bodyId s with
  | .record v s2 =>
      match Result.fieldsF tx headId s2 with
      | .ok (Val.list names) tx2 s3 => .yielded (names.zip v) tx2 s3
      | .ok _ tx2 s3 => .raisedError tx2 s3
      | .attrError tx2 s3 => .raisedError tx2 s3
      | .raisedFailure f tx2 s3 => .raisedFailure f tx2 s3
      | .raisedFetch tx2 s3 => .raisedFetch tx2 s3
      | .raisedError tx2 s3 => .raisedError tx2 s3
      | .stuck tx2 s3 => .stuck tx2 s3
  | .endOfRecords s2 => .stopIter tx s2
  | .failureOut f s2 =>
      match tx.fail s2 f with
      | .raised g tx2 s3 => .raisedFailure g tx2 s3
      | .returned tx2 s3 => .yieldedNone tx2 s3
      | .fetchFailure _ tx2 s3 => .raisedFetch tx2 s3
      | .fetchError tx2 s3 => .raisedError tx2 s3
      | .stuck tx2 s3 => .stuck tx2 s3
  | .errorOut s2 => .raisedError tx s2
  | .stuckOut s2 => .stuck tx s2

/-- State of a `Bolt3` connection: the at-most-one active transaction slot
(`self._tx`) and the Courier. -/
structure Bolt3State where
  txSlot : Option Transaction
  courier : CourierState

/-- `Bolt3.ready`: `not self._tx or self._tx.closed`. -/
def Bolt3State.ready (b : Bolt3State) : Bool :=
  match b.txSlot with
  | none => true
  | some t => t.closed

/-- Outcome of `Bolt3.run`: on success, the two Response ids of the Result. -/
inductive B3RunOutcome where
  | ok (head body : Nat) (b : Bolt3State)
  | txError (b : Bolt3State)

/-- `Bolt3.run(...)`: `self._assert_ready()` (raising `BoltTransactionError`
without touching the transport when not ready); store a fresh auto-commit
Transaction in `self._tx` and delegate to its `run`. -/
def Bolt3State.run (b : Bolt3State) (cypher : String) (parameters : List (String × Val))
    (discard readonly : Bool) (bookmarks : Option (List String)) (timeout : Option ℚ)
    (metadata : Option (List (String × Val))) : B3RunOutcome :=
  if !b.ready then .txError b
  else
    let tx := Transaction.make readonly bookmarks timeout metadata
    match tx.runQ b.courier cypher parameters discard with
    | .ok head body tx2 s2 => .ok head body { txSlot := some tx2, courier := s2 }
    | .txError tx2 s2 => .txError { txSlot := some tx2, courier := s2 }

/-- Outcome of `Bolt3.begin`. -/
inductive B3BeginOutcome where
  | ok (tx : Transaction) (b : Bolt3State)
  | txError (b : Bolt3State)
  | raisedFailure (f : BFailure) (b : Bolt3State)
  | raisedOther (b : Bolt3State)
  | stuck (b : Bolt3State)

/-- `Bolt3.begin(...)`: `self._assert_ready()`, then
`self._tx = await Transaction.begin(...)` (on an exception out of
`Transaction.begin`, `self._tx` is left unassigned). -/
def Bolt3State.beginB (b : Bolt3State) (readonly : Bool) (bookmarks : Option (List String))
    (timeout : Option ℚ) (metadata : Option (List (String × Val))) : B3BeginOutcome :=
  if !b.ready then .txError b
  else
    match Transaction.beginTx b.courier readonly bookmarks timeout metadata with
    | .ok tx s2 => .ok tx { txSlot := some tx, courier := s2 }
    | .fetchFailure f s2 => .raisedFailure f { b with courier := s2 }
    | .fetchError s2 => .raisedOther { b with courier := s2 }
    | .stuckB s2 => .stuck { b with courier := s2 }

/-- Outcome of `Bolt3.run_tx`. -/
inductive RunTxOutcome where
  | ok (v : Val) (b : Bolt3State)
  | typeError (b : Bolt3State)
  | txError (b : Bolt3State)
  | userExn (b : Bolt3State)
  | raisedFailure (f : BFailure) (b : Bolt3State)
  | raisedOther (b : Bolt3State)
  | stuck (b : Bolt3State)

/-- Whether a `run_tx` outcome is the `TypeError` raised on a non-coroutine
function argument. -/
def RunTxOutcome.isTypeError : RunTxOutcome → Bool
  | .typeError _ => true
  | _ => false

/-- The connection state carried by a `run_tx` outcome. -/
def RunTxOutcome.bState : RunTxOutcome → Bolt3State
  | .ok _ b => b
  | .typeError b => b
  | .txError b => b
  | .userExn b => b
  | .raisedFailure _ b => b
  | .raisedOther b => b
  | .stuck b => b

/-- `Bolt3.run_tx(f, ...)`: begin an explicit transaction — note the source
passes `timeout=None` through to `begin` regardless of the `timeout`
argument — THEN check `iscoroutinefunction(f)` and raise `TypeError` if it
fails; otherwise run `f(tx, ...)` (modelled as a state transformer returning
`Except Unit Val`), rolling back and re-raising on an exception from `f`,
else committing and returning its value. -/
def Bolt3State.runTx (b : Bolt3State) (fIsCoroutine : Bool)
    (f : Transaction → CourierState → Transaction × CourierState × Except Unit Val)
    (readonly : Bool) (bookmarks : Option (List String)) (_timeout : Option ℚ)
    (metadata : Option (List (String × Val))) : RunTxOutcome :=
  match b.beginB readonly bookmarks none metadata with
  | .txError b2 => .txError b2
  | .raisedFailure f2 b2 => .raisedFailure f2 b2
  | .raisedOther b2 => .raisedOther b2
  | .stuck b2 => .stuck b2
  | .ok tx b2 =>
      if !fIsCoroutine then .typeError b2
      else
        match f tx b2.courier with
        | (tx2, s2, .error _) =>
            match tx2.rollbackT s2 with
            | .ok _ tx3 s3 => .userExn { txSlot := some tx3, courier := s3 }
            | .txError tx3 s3 => .txError { txSlot := some tx3, courier := s3 }
            | .raisedFailure g tx3 s3 => .raisedFailure g { txSlot := some tx3, courier := s3 }
            | .raisedOther tx3 s3 => .raisedOther { txSlot := some tx3, courier := s3 }
            | .stuck tx3 s3 => .stuck { txSlot := some tx3, courier := s3 }
        | (tx2, s2, .ok v) =>
            match tx2.commitT s2 with
            | .ok _ tx3 s3 => .ok v { txSlot := some tx3, courier := s3 }
            | .txError tx3 s3 => .txError { txSlot := some tx3, courier := s3 }
            | .raisedFailure g tx3 s3 => .raisedFailure g { txSlot := some tx3, courier := s3 }
            | .raisedOther tx3 s3 => .raisedOther { txSlot := some tx3, courier := s3 }
            | .stuck tx3 s3 => .stuck { txSlot := some tx3, courier := s3 }

def WF (s : CourierState) : Prop :=
  s.queue.Nodup ∧ (∀ i ∈ s.queue, (s.store i).summary = none) ∧ (∀ i ∈ s.queue, i < s.next)

def c1state : CourierState :=
  { queue := [0, 1], store := fun _ => { records := [], summary := none }, next := 2,
    input := [.success [], .record [Val.i 1], .success []],
    outbound := [], sentLog := [], fetchCalls := 0, remote := "srv" }

def c1wstate : CourierState :=
  { queue := [], store := upd (fun _ => { records := [], summary := none }) 0
      { records := [[Val.i 7]], summary := some (.summary [] true) }, next := 1,
    input := [], outbound := [], sentLog := [], fetchCalls := 0, remote := "srv" }

def c2state : CourierState :=
  { queue := [5, 7], store := fun _ => { records := [], summary := none }, next := 8,
    input := [.failure [("code", Val.s "Neo.X"), ("message", Val.s "boom")]],
    outbound := [], sentLog := [], fetchCalls := 0, remote := "srv" }

def c6state : CourierState :=
  { queue := [0], store := fun _ => { records := [], summary := none }, next := 1,
    input := [.success []], outbound := [], sentLog := [], fetchCalls := 0, remote := "srv" }

def c7courier : CourierState :=
  { queue := [], store := fun _ => { records := [], summary := none }, next := 0,
    input := [], outbound := [], sentLog := [], fetchCalls := 0, remote := "srv" }

def c7b : Bolt3State :=
  { txSlot := some { autocommit := false, closed := false, failure := none, extras := [] },
    courier := c7courier }

/-- Number of RESET messages the Courier has buffered or flushed. -/
def isResetMsg : CliMsg → Bool
  | .reset => true
  | _ => false

def countReset (s : CourierState) : Nat :=
  (s.outbound.filter isResetMsg).length + (s.sentLog.filter isResetMsg).length

def c3tx : Transaction :=
  { autocommit := true, closed := false, failure := none, extras := [] }

def c3f : BFailure :=
  { message := some (Val.s "boom"), remote := "srv", code := some (Val.s "Neo.X"),
    responseId := 3 }

def c3state : CourierState :=
  { queue := [], store := fun _ => { records := [], summary := none }, next := 0,
    input := [.success []], outbound := [], sentLog := [], fetchCalls := 0, remote := "srv" }

def c5state : CourierState :=
  { queue := [], store := fun _ => { records := [], summary := none }, next := 0,
    input := [.success []], outbound := [], sentLog := [], fetchCalls := 0, remote := "srv" }

/-- Number of BEGIN messages the Courier has buffered or flushed. -/
def isBeginMsg : CliMsg → Bool
  | .begin _ => true
  | _ => false

def countBegins (s : CourierState) : Nat :=
  (s.outbound.filter isBeginMsg).length + (s.sentLog.filter isBeginMsg).length

def c4courier : CourierState :=
  { queue := [], store := fun _ => { records := [], summary := none }, next := 0,
    input := [], outbound := [], sentLog := [], fetchCalls := 0, remote := "srv" }

def c4b : Bolt3State := { txSlot := none, courier := c4courier }

def c4f : Transaction → CourierState → Transaction × CourierState × Except Unit Val :=
  fun tx s => (tx, s, .ok Val.null)

def c4g : Transaction → CourierState → Transaction × CourierState × Except Unit Val :=
  fun tx s => (tx, s, .error ())

def c9tx : Transaction :=
  { autocommit := true, closed := false, failure := none, extras := [] }

def c9store : Nat → Response :=
  upd (fun _ => { records := [], summary := none }) 0
    { records := [], summary := some (.summary [("fields", Val.list [Val.s "n"])] true) }

def c9state : CourierState :=
  { queue := [], store := c9store, next := 1,
    input := [], outbound := [], sentLog := [], fetchCalls := 0, remote := "srv" }

def c10tx : Transaction :=
  { autocommit := false, closed := true,
    failure := some { message := some (Val.s "early"), remote := "srv",
                      code := some (Val.s "Neo.E"), responseId := 0 },
    extras := [] }

def c10state : CourierState :=
  { queue := [1], store := fun _ => { records := [], summary := none }, next := 2,
    input := [.failure [("code", Val.s "Neo.X"), ("message", Val.s "boom")]],
    outbound := [], sentLog := [], fetchCalls := 0, remote := "srv" }

/-! ## Helper lemmas -/

@[simp] theorem upd_self (st : Nat → Response) (i : Nat) (r : Response) :
    upd st i r i = r := by
  simp [upd]

theorem upd_other (st : Nat → Response) (i j : Nat) (r : Response) (h : j ≠ i) :
    upd st i r j = st j := by
  simp [upd, h]

theorem fetchLoop_preserves (stop : (Nat → Response) → Bool) :
    ∀ (input : List SrvMsg) (s : CourierState),
      (fetchLoop stop input s).st.outbound = s.outbound ∧
      (fetchLoop stop input s).st.sentLog = s.sentLog ∧
      (fetchLoop stop input s).st.fetchCalls = s.fetchCalls ∧
      (fetchLoop stop input s).st.next = s.next ∧
      (fetchLoop stop input s).st.remote = s.remote := by
  intro input
  induction input with
  | nil =>
      intro s
      unfold fetchLoop
      cases hq : s.queue with
      | nil => simp [FetchOutcome.st]
      | cons h t =>
          by_cases hstop : stop s.store
          · simp [hstop, FetchOutcome.st]
          · simp [hstop, FetchOutcome.st]
  | cons m rest ih =>
      intro s
      unfold fetchLoop
      cases hq : s.queue with
      | nil => simp [FetchOutcome.st]
      | cons h t =>
          by_cases hstop : stop s.store
          · simp [hstop, FetchOutcome.st]
          · cases m with
            | record data => simpa [hstop] using ih _
            | success md => simpa [hstop] using ih _
            | ignored => simpa [hstop] using ih _
            | failure md => simp [hstop, FetchOutcome.st]
            | illegal => simp [hstop, FetchOutcome.st]

theorem fetchLoop_exit (stop : (Nat → Response) → Bool) (input : List SrvMsg)
    (s : CourierState) (hexit : s.queue = [] ∨ stop s.store = true) :
    fetchLoop stop input s = .ok { s with input := input } := by
  cases input with
  | nil =>
      unfold fetchLoop
      rcases hexit with hq | hstop
      · rw [hq]
      · cases hq : s.queue with
        | nil => rfl
        | cons h t => rw [hstop]; rfl
  | cons m rest =>
      unfold fetchLoop
      rcases hexit with hq | hstop
      · rw [hq]
      · cases hq : s.queue with
        | nil => rfl
        | cons h t => rw [hstop]; rfl

theorem fetch_fetchCalls (s : CourierState) (stop : (Nat → Response) → Bool) :
    (s.fetch stop).st.fetchCalls = s.fetchCalls + 1 := by
  simpa [CourierState.fetch] using
    (fetchLoop_preserves stop s.input { s with fetchCalls := s.fetchCalls + 1 }).2.2.1

theorem fetch_outbound (s : CourierState) (stop : (Nat → Response) → Bool) :
    (s.fetch stop).st.outbound = s.outbound := by
  simpa [CourierState.fetch] using
    (fetchLoop_preserves stop s.input { s with fetchCalls := s.fetchCalls + 1 }).1

theorem fetch_sentLog (s : CourierState) (stop : (Nat → Response) → Bool) :
    (s.fetch stop).st.sentLog = s.sentLog := by
  simpa [CourierState.fetch] using
    (fetchLoop_preserves stop s.input { s with fetchCalls := s.fetchCalls + 1 }).2.1

theorem fetch_exit (s : CourierState) (stop : (Nat → Response) → Bool)
    (hexit : s.queue = [] ∨ stop s.store = true) :
    s.fetch stop = .ok { s with fetchCalls := s.fetchCalls + 1 } := by
  have := fetchLoop_exit stop s.input { s with fetchCalls := s.fetchCalls + 1 } (by exact hexit)
  simpa [CourierState.fetch] using this

theorem WF_updHead (s : CourierState) (h : Nat) (t : List Nat) (hq : s.queue = h :: t)
    (hWF : WF s) (r : Response) (hr : r.summary = none) :
    WF { s with store := upd s.store h r } := by
  obtain ⟨hnd, hsum, hlt⟩ := hWF
  refine ⟨hnd, ?_, hlt⟩
  intro i hi
  by_cases hih : i = h
  · subst hih; simpa [upd] using hr
  · simpa [upd, hih] using hsum i hi

theorem WF_dequeue (s : CourierState) (h : Nat) (t : List Nat) (hq : s.queue = h :: t)
    (hWF : WF s) (r : Response) :
    WF { s with queue := t, store := upd s.store h r } := by
  obtain ⟨hnd, hsum, hlt⟩ := hWF
  rw [hq] at hnd hsum hlt
  have hnotmem : h ∉ t := (List.nodup_cons.mp hnd).1
  refine ⟨(List.nodup_cons.mp hnd).2, ?_, ?_⟩
  · intro i hi
    have hih : i ≠ h := fun he => hnotmem (he ▸ hi)
    simpa [upd, hih] using hsum i (List.mem_cons_of_mem h hi)
  · intro i hi
    exact hlt i (List.mem_cons_of_mem h hi)

theorem frozen_upd (s : CourierState) (h : Nat) (t : List Nat) (hq : s.queue = h :: t)
    (hWF : WF s) (r : Response) (i : Nat) (hiS : ((s.store i).summary).isSome) :
    upd s.store h r i = s.store i := by
  obtain ⟨hnd, hsum, hlt⟩ := hWF
  have hih : i ≠ h := by
    intro he
    subst he
    rw [hsum i (by rw [hq]; exact List.mem_cons_self i t)] at hiS
    simp at hiS
  exact upd_other s.store h i r hih

theorem fetchLoop_WF_frozen (stop : (Nat → Response) → Bool) :
    ∀ (input : List SrvMsg) (s : CourierState), WF s →
      WF (fetchLoop stop input s).st ∧
      ∀ i, ((s.store i).summary).isSome →
        (fetchLoop stop input s).st.store i = s.store i := by
  intro input
  induction input with
  | nil =>
      rintro ⟨q, st, nx, inp, ob, sl, fc, rm⟩ hWF
      cases q with
      | nil => exact ⟨hWF, fun i _ => rfl⟩
      | cons h t =>
          by_cases hstop : stop st
          · unfold fetchLoop
            simp only [hstop, if_true]
            exact ⟨hWF, fun i _ => rfl⟩
          · unfold fetchLoop
            simp only [hstop, if_false]
            exact ⟨hWF, fun i _ => rfl⟩
  | cons m rest ih =>
      rintro ⟨q, st, nx, inp, ob, sl, fc, rm⟩ hWF
      cases q with
      | nil => exact ⟨hWF, fun i _ => rfl⟩
      | cons h t =>
          by_cases hstop : stop st
          · unfold fetchLoop
            simp only [hstop, if_true]
            exact ⟨hWF, fun i _ => rfl⟩
          · have hhnone : (st h).summary = none :=
              hWF.2.1 h (List.mem_cons_self h t)
            unfold fetchLoop
            simp only [hstop, if_false]
            cases m with
            | record data =>
                have hWF2 := WF_updHead ⟨h :: t, st, nx, inp, ob, sl, fc, rm⟩ h t rfl hWF
                  { st h with records := (st h).records ++ [data] } hhnone
                have key := ih _ hWF2
                refine ⟨key.1, fun i hiS => ?_⟩
                have hfrz : upd st h { st h with records := (st h).records ++ [data] } i
                    = st i := frozen_upd ⟨h :: t, st, nx, inp, ob, sl, fc, rm⟩ h t rfl hWF _ i hiS
                exact (key.2 i (by simpa [hfrz] using hiS)).trans hfrz
            | success md =>
                have hWF2 := WF_dequeue ⟨h :: t, st, nx, inp, ob, sl, fc, rm⟩ h t rfl hWF
                  { st h with summary := some (.summary md true) }
                have key := ih _ hWF2
                refine ⟨key.1, fun i hiS => ?_⟩
                have hfrz : upd st h { st h with summary := some (.summary md true) } i
                    = st i := frozen_upd ⟨h :: t, st, nx, inp, ob, sl, fc, rm⟩ h t rfl hWF _ i hiS
                exact (key.2 i (by simpa [hfrz] using hiS)).trans hfrz
            | ignored =>
                have hWF2 := WF_dequeue ⟨h :: t, st, nx, inp, ob, sl, fc, rm⟩ h t rfl hWF
                  { st h with summary := some .ignoredS }
                have key := ih _ hWF2
                refine ⟨key.1, fun i hiS => ?_⟩
                have hfrz : upd st h { st h with summary := some .ignoredS } i
                    = st i := frozen_upd ⟨h :: t, st, nx, inp, ob, sl, fc, rm⟩ h t rfl hWF _ i hiS
                exact (key.2 i (by simpa [hfrz] using hiS)).trans hfrz
            | failure md =>
                refine ⟨WF_dequeue ⟨h :: t, st, nx, inp, ob, sl, fc, rm⟩ h t rfl hWF _,
                        fun i hiS => ?_⟩
                exact frozen_upd ⟨h :: t, st, nx, inp, ob, sl, fc, rm⟩ h t rfl hWF _ i hiS
            | illegal =>
                exact ⟨hWF, fun i _ => rfl⟩

theorem getRecordLoop_succ (stop : Nat → (Nat → Response) → Bool) (fuel i : Nat)
    (s : CourierState) :
    getRecordLoop stop (fuel + 1) i s =
      match (s.store i).records with
      | v :: rs =>
          .record v { s with store := upd s.store i { s.store i with records := rs } }
      | [] =>
        if ((s.store i).summary).isSome then .endOfRecords s
        else
          match s.fetch (stop i) with
          | .ok s2 => getRecordLoop stop fuel i s2
          | .starved s2 => .stuckOut s2
          | .boltFailure f s2 => .failureOut f s2
          | .boltError s2 => .errorOut s2 := rfl

theorem getRecordLoop_mono (stop : Nat → (Nat → Response) → Bool) :
    ∀ (fuel i : Nat) (s : CourierState),
      s.fetchCalls ≤ (getRecordLoop stop fuel i s).st.fetchCalls := by
  intro fuel
  induction fuel with
  | zero => intro i s; exact le_refl _
  | succ fuel ih =>
      intro i s
      rw [getRecordLoop_succ]
      cases hr : (s.store i).records with
      | cons v rs => exact le_refl _
      | nil =>
          by_cases hsum : ((s.store i).summary).isSome
          · simp only [hsum, if_true]
            exact le_refl _
          · simp only [hsum, if_false]
            cases hfetch : s.fetch (stop i) with
            | ok s2 =>
                have h1 : s2.fetchCalls = s.fetchCalls + 1 := by
                  have := fetch_fetchCalls s (stop i)
                  rwa [hfetch] at this
                calc s.fetchCalls ≤ s2.fetchCalls := by omega
                  _ ≤ (getRecordLoop stop fuel i s2).st.fetchCalls := ih i s2
            | starved s2 =>
                have h1 : s2.fetchCalls = s.fetchCalls + 1 := by
                  have := fetch_fetchCalls s (stop i)
                  rwa [hfetch] at this
                simp [GetRecOutcome.st]
                omega
            | boltFailure f s2 =>
                have h1 : s2.fetchCalls = s.fetchCalls + 1 := by
                  have := fetch_fetchCalls s (stop i)
                  rwa [hfetch] at this
                simp [GetRecOutcome.st]
                omega
            | boltError s2 =>
                have h1 : s2.fetchCalls = s.fetchCalls + 1 := by
                  have := fetch_fetchCalls s (stop i)
                  rwa [hfetch] at this
                simp [GetRecOutcome.st]
                omega

theorem getRecord_unfold (i : Nat) (s : CourierState) :
    getRecord i s = getRecordLoop stopRecords (s.input.length + 1 + 1) i s := rfl

theorem beginTx_countBegins (s : CourierState) (readonly : Bool)
    (bookmarks : Option (List String)) (timeout : Option ℚ)
    (metadata : Option (List (String × Val))) :
    countBegins (Transaction.beginTx s readonly bookmarks timeout metadata).st
      = countBegins s + 1 := by
  by_cases hb : bkTruthy bookmarks
  · have hst : (Transaction.beginTx s readonly bookmarks timeout metadata).st =
        (((s.writeMsg (.begin (mkExtras readonly bookmarks timeout metadata))).2.send).fetch
          noStop).st := by
      simp only [Transaction.beginTx, hb, if_true, Transaction.make]
      cases hfetch : (((s.writeMsg (.begin (mkExtras readonly bookmarks timeout metadata))).2.send).fetch noStop) with
      | ok s3 => simp [hfetch, BeginOutcome.st, FetchOutcome.st]
      | starved s3 => simp [hfetch, BeginOutcome.st, FetchOutcome.st]
      | boltFailure g s3 => simp [hfetch, BeginOutcome.st, FetchOutcome.st]
      | boltError s3 => simp [hfetch, BeginOutcome.st, FetchOutcome.st]
    rw [hst]
    rw [countBegins, fetch_outbound, fetch_sentLog]
    simp [countBegins, CourierState.send, CourierState.writeMsg, List.filter_append, isBeginMsg]
    omega
  · have hst : (Transaction.beginTx s readonly bookmarks timeout metadata).st =
        (s.writeMsg (.begin (mkExtras readonly bookmarks timeout metadata))).2 := by
      simp [Transaction.beginTx, hb, Transaction.make, BeginOutcome.st]
    rw [hst]
    simp [countBegins, CourierState.writeMsg, List.filter_append, isBeginMsg]
    omega

/-! ## Claim theorems -/

/-- C1 (corrected): `Response.get_record` pops and returns the front record
whenever the FIFO is non-empty — with no condition on the summary slot, so
buffered records are always yielded before end-of-records even when the
summary has already arrived; with an empty FIFO and a present summary it
returns the null end-of-records marker without touching the network; and with
an empty FIFO and no summary it drives the Courier's `fetch` (observable on
the `fetchCalls` counter).  The stop predicate it hands to `fetch` is the
source's "records present" (`stopRecords`), not the claim's "records present
OR summary present" — see `c1_counterexample`. -/
theorem c1_get_record_amended (i : Nat) (s : CourierState) :
    (∀ v rs, (s.store i).records = v :: rs →
        getRecord i s =
          .record v { s with store := upd s.store i { s.store i with records := rs } }) ∧
    ((s.store i).records = [] → ((s.store i).summary).isSome →
        getRecord i s = .endOfRecords s) ∧
    ((s.store i).records = [] → (s.store i).summary = none →
        s.fetchCalls + 1 ≤ (getRecord i s).st.fetchCalls) := by
  refine ⟨?_, ?_, ?_⟩
  · intro v rs hr
    rw [getRecord_unfold, getRecordLoop_succ, hr]
  · intro hr hsum
    rw [getRecord_unfold, getRecordLoop_succ, hr]
    simp [hsum]
  · intro hr hsum
    rw [getRecord_unfold, getRecordLoop_succ, hr]
    simp only [hsum, Option.isSome_none, Bool.false_eq_true, if_false]
    cases hfetch : s.fetch (stopRecords i) with
    | ok s2 =>
        have h1 : s2.fetchCalls = s.fetchCalls + 1 := by
          have := fetch_fetchCalls s (stopRecords i)
          rwa [hfetch] at this
        have h2 := getRecordLoop_mono stopRecords (s.input.length + 1) i s2
        exact le_trans h1.ge h2
    | starved s2 =>
        have h1 : s2.fetchCalls = s.fetchCalls + 1 := by
          have := fetch_fetchCalls s (stopRecords i)
          rwa [hfetch] at this
        exact h1.ge
    | boltFailure f s2 =>
        have h1 : s2.fetchCalls = s.fetchCalls + 1 := by
          have := fetch_fetchCalls s (stopRecords i)
          rwa [hfetch] at this
        exact h1.ge
    | boltError s2 =>
        have h1 : s2.fetchCalls = s.fetchCalls + 1 := by
          have := fetch_fetchCalls s (stopRecords i)
          rwa [hfetch] at this
        exact h1.ge

/-- C1 counterexample: the claim's stop predicate "records present OR summary
present" (`getRecordSpec`, modelled from the spec's words) observably differs
from the source's "records present" (`getRecord`).  From a state with two
queued responses and input SUCCESS, RECORD, SUCCESS, a `get_record` on the
first response returns the null marker either way, but the source keeps
draining after the first response's summary arrives (all 3 inbound messages
consumed, the record buffered on the second response), while the claim's
predicate stops immediately (2 messages left unread, nothing buffered). -/
theorem c1_counterexample :
    (getRecord 0 c1state).isEnd = true ∧
    (getRecordSpec 0 c1state).isEnd = true ∧
    (getRecord 0 c1state).st.input.length = 0 ∧
    (getRecordSpec 0 c1state).st.input.length = 2 ∧
    ((getRecord 0 c1state).st.store 1).records.length = 1 ∧
    ((getRecordSpec 0 c1state).st.store 1).records.length = 0 :=
  ⟨rfl, rfl, rfl, rfl, rfl, rfl⟩

/-- C1 witness: `c1_get_record_amended` evaluated at a concrete state whose
response 0 holds one buffered record and an already-arrived summary: the
record is yielded, not the end-of-records marker. -/
theorem c1_witness :
    getRecord 0 c1wstate =
      .record [Val.i 7]
        { c1wstate with store := upd c1wstate.store 0 { c1wstate.store 0 with records := [] } } :=
  (c1_get_record_amended 0 c1wstate).1 [Val.i 7] [] rfl

/-- C2: whenever the `fetch` loop consumes a FAILURE message (queue head `h`,
stop predicate currently false, FAILURE at the front of the input), it stores
`Summary{metadata, success=false}` as the terminal summary of the head
Response, dequeues it, and raises `BoltFailure` carrying
`metadata.get("message")`, the remote address, `metadata.get("code")` and that
Response — instead of returning normally (`boltFailure`, not `ok`). -/
theorem c2_fetch_failure (stop : (Nat → Response) → Bool) (s : CourierState)
    (h : Nat) (t : List Nat) (md : List (String × Val)) (rest : List SrvMsg)
    (hq : s.queue = h :: t) (hstop : stop s.store = false)
    (hin : s.input = .failure md :: rest) :
    s.fetch stop = .boltFailure
      { message := mdLookup md "message", remote := s.remote,
        code := mdLookup md "code", responseId := h }
      { s with queue := t,
               store := upd s.store h { s.store h with summary := some (.summary md false) },
               input := rest, fetchCalls := s.fetchCalls + 1 } := by
  obtain ⟨q, st, nx, inp, ob, sl, fc, rm⟩ := s
  replace hq : q = h :: t := hq
  replace hin : inp = .failure md :: rest := hin
  replace hstop : stop st = false := hstop
  subst hq
  subst hin
  simp [CourierState.fetch, fetchLoop, hstop]

/-- C2 witness: `c2_fetch_failure` evaluated on a concrete state whose input
starts with FAILURE{code, message}. -/
theorem c2_witness :
    c2state.fetch noStop = .boltFailure
      { message := some (Val.s "boom"), remote := "srv",
        code := some (Val.s "Neo.X"), responseId := 5 }
      { c2state with queue := [7],
                      store := upd c2state.store 5 { c2state.store 5 with summary := some (.summary [("code", Val.s "Neo.X"), ("message", Val.s "boom")] false) },
                      input := [], fetchCalls := 1 } := by
  have := c2_fetch_failure noStop c2state 5 [7]
    [("code", Val.s "Neo.X"), ("message", Val.s "boom")] [] rfl rfl rfl
  simpa [mdLookup] using this

/-- C3: `Transaction.fail` is idempotent.  First call (empty failure slot, the
RESET round-trip's `fetch` returning normally): exactly one more RESET is in
the Courier's message log, the outbound buffer was flushed (`send`), `fetch`
ran once, the transaction is closed with the failure recorded, and that
failure is re-raised.  Any later call, with any failure argument, returns
without raising, without writing, and without touching the stored failure. -/
theorem c3_fail_idempotent (tx : Transaction) (s : CourierState) (f : BFailure) :
    (tx.failure = none →
      ∀ s3, ((s.writeMsg .reset).2.send).fetch noStop = .ok s3 →
        tx.fail s f = .raised f { tx with closed := true, failure := some f } s3 ∧
        countReset s3 = countReset s + 1 ∧
        s3.outbound = [] ∧
        s3.fetchCalls = s.fetchCalls + 1) ∧
    (∀ f0, tx.failure = some f0 → ∀ g, tx.fail s g = .returned tx s) := by
  constructor
  · intro hnone s3 hfetch
    have hs2out : ((s.writeMsg .reset).2.send).outbound = [] := rfl
    have hs2sent : ((s.writeMsg .reset).2.send).sentLog
        = s.sentLog ++ (s.outbound ++ [.reset]) := rfl
    have hout : s3.outbound = [] := by
      have := fetch_outbound ((s.writeMsg .reset).2.send) noStop
      rw [hfetch] at this
      exact this.trans hs2out
    have hsent : s3.sentLog = s.sentLog ++ (s.outbound ++ [.reset]) := by
      have := fetch_sentLog ((s.writeMsg .reset).2.send) noStop
      rw [hfetch] at this
      exact this.trans hs2sent
    have hfc : s3.fetchCalls = s.fetchCalls + 1 := by
      have := fetch_fetchCalls ((s.writeMsg .reset).2.send) noStop
      rw [hfetch] at this
      exact this
    refine ⟨?_, ?_, hout, hfc⟩
    · simp only [Transaction.fail, hnone, Option.isSome_none, Bool.false_eq_true,
        if_false, hfetch]
    · simp [countReset, hout, hsent, List.filter_append, isResetMsg]
      omega
  · intro f0 hsome g
    simp [Transaction.fail, hsome]

/-- C3 witness: `c3_fail_idempotent` at a concrete open transaction and
courier (first call raises and writes one RESET), then at the resulting
closed-with-failure transaction (second call is a no-op). -/
theorem c3_witness :
    c3tx.fail c3state c3f =
      .raised c3f { c3tx with closed := true, failure := some c3f }
        ((((c3state.writeMsg .reset).2.send).fetch noStop).st) ∧
    countReset ((((c3state.writeMsg .reset).2.send).fetch noStop).st) = countReset c3state + 1 ∧
    ((((c3state.writeMsg .reset).2.send).fetch noStop).st).outbound = [] ∧
    ((((c3state.writeMsg .reset).2.send).fetch noStop).st).fetchCalls = c3state.fetchCalls + 1 ∧
    Transaction.fail { c3tx with closed := true, failure := some c3f } c3state c3f =
      .returned { c3tx with closed := true, failure := some c3f } c3state := by
  have h1 := (c3_fail_idempotent c3tx c3state c3f).1 rfl
    ((((c3state.writeMsg .reset).2.send).fetch noStop).st) rfl
  have h2 := (c3_fail_idempotent { c3tx with closed := true, failure := some c3f }
    c3state c3f).2 c3f rfl c3f
  exact ⟨h1.1, h1.2.1, h1.2.2.1, h1.2.2.2, h2⟩

/-- C4 counterexample: `run_tx` with a non-coroutine function does raise
`TypeError`, but only AFTER beginning the transaction — at this concrete
connection the outcome is `typeError` and a BEGIN message is already sitting
in the outbound buffer, contradicting "before any work is performed — in
particular, before any BEGIN message is written". -/
theorem c4_counterexample :
    (c4b.runTx false c4f false none none none).isTypeError = true ∧
    (c4b.runTx false c4f false none none none).bState.courier.outbound = [CliMsg.begin []] :=
  ⟨rfl, rfl⟩

/-- C4 (corrected): for a non-coroutine `f`, `run_tx` never invokes `f` (its
outcome is independent of the function argument), and whenever the initial
`begin` returns normally it raises `TypeError` with exactly one BEGIN message
newly written — i.e. the type check happens after BEGIN is written (and
after the eager sync when bookmarks were supplied), not before. -/
theorem c4_run_tx_amended (b : Bolt3State)
    (f g : Transaction → CourierState → Transaction × CourierState × Except Unit Val)
    (readonly : Bool) (bookmarks : Option (List String)) (timeout : Option ℚ)
    (metadata : Option (List (String × Val))) :
    b.runTx false f readonly bookmarks timeout metadata =
      b.runTx false g readonly bookmarks timeout metadata ∧
    (∀ tx b2, b.beginB readonly bookmarks none metadata = .ok tx b2 →
       b.runTx false f readonly bookmarks timeout metadata = .typeError b2 ∧
       countBegins b2.courier = countBegins b.courier + 1) := by
  constructor
  · unfold Bolt3State.runTx
    cases b.beginB readonly bookmarks none metadata <;> rfl
  · intro tx b2 hB
    constructor
    · unfold Bolt3State.runTx
      rw [hB]
      rfl
    · unfold Bolt3State.beginB at hB
      by_cases hready : b.ready
      · simp only [hready, Bool.not_true, Bool.false_eq_true, if_false] at hB
        cases hbt : Transaction.beginTx b.courier readonly bookmarks none metadata with
        | ok txA s2 =>
            rw [hbt] at hB
            injection hB with h1 h2
            have hc : b2.courier = s2 := by rw [← h2]
            rw [hc]
            have hcnt := beginTx_countBegins b.courier readonly bookmarks none metadata
            rwa [hbt] at hcnt
        | fetchFailure g2 s2 => rw [hbt] at hB; exact absurd hB (by simp)
        | fetchError s2 => rw [hbt] at hB; exact absurd hB (by simp)
        | stuckB s2 => rw [hbt] at hB; exact absurd hB (by simp)
      · rw [Bool.not_eq_true] at hready
        rw [hready] at hB
        simp at hB

/-- C4 witness: `c4_run_tx_amended` at a concrete ready connection: the
outcome is `TypeError`, `f` was irrelevant, and one BEGIN was written. -/
theorem c4_witness :
    c4b.runTx false c4f false none none none = c4b.runTx false c4g false none none none ∧
    (c4b.runTx false c4f false none none none).isTypeError = true ∧
    countBegins (c4b.runTx false c4f false none none none).bState.courier
      = countBegins c4b.courier + 1 := by
  have h1 := (c4_run_tx_amended c4b c4f c4g false none none none).1
  have h2 := (c4_run_tx_amended c4b c4f c4g false none none none).2
    { autocommit := false, closed := false, failure := none, extras := [] }
    { txSlot := some { autocommit := false, closed := false, failure := none, extras := [] },
      courier := (c4courier.writeMsg (.begin [])).2 } rfl
  refine ⟨h1, ?_, ?_⟩
  · rw [h2.1]
    rfl
  · rw [h2.1]
    exact h2.2

/-- C5: `Transaction.begin` writes BEGIN(extras) and syncs eagerly iff a
non-empty bookmarks collection was supplied: with falsy bookmarks the result
state is exactly the buffered write (sent log, pending input and `fetchCalls`
untouched); with truthy bookmarks the outbound buffer (ending in the BEGIN)
is flushed to the wire and `fetch` is invoked once before returning. -/
theorem c5_begin_sync (s : CourierState) (readonly : Bool) (timeout : Option ℚ)
    (metadata : Option (List (String × Val))) :
    (∀ bookmarks, bkTruthy bookmarks = false →
       Transaction.beginTx s readonly bookmarks timeout metadata =
         .ok { Transaction.make readonly bookmarks timeout metadata with autocommit := false }
            (s.writeMsg (.begin (mkExtras readonly bookmarks timeout metadata))).2) ∧
    (∀ bookmarks, bkTruthy bookmarks = true →
       (Transaction.beginTx s readonly bookmarks timeout metadata).st.sentLog
          = s.sentLog ++ (s.outbound ++ [.begin (mkExtras readonly bookmarks timeout metadata)]) ∧
       (Transaction.beginTx s readonly bookmarks timeout metadata).st.outbound = [] ∧
       (Transaction.beginTx s readonly bookmarks timeout metadata).st.fetchCalls
          = s.fetchCalls + 1) := by
  constructor
  · intro bookmarks hb
    simp [Transaction.beginTx, hb, Transaction.make]
  · intro bookmarks hb
    have hst : (Transaction.beginTx s readonly bookmarks timeout metadata).st =
        (((s.writeMsg (.begin (mkExtras readonly bookmarks timeout metadata))).2.send).fetch
          noStop).st := by
      simp only [Transaction.beginTx, hb, if_true, Transaction.make]
      cases hfetch : (((s.writeMsg (.begin (mkExtras readonly bookmarks timeout metadata))).2.send).fetch noStop) with
      | ok s3 => simp [hfetch, BeginOutcome.st, FetchOutcome.st]
      | starved s3 => simp [hfetch, BeginOutcome.st, FetchOutcome.st]
      | boltFailure g s3 => simp [hfetch, BeginOutcome.st, FetchOutcome.st]
      | boltError s3 => simp [hfetch, BeginOutcome.st, FetchOutcome.st]
    rw [hst]
    refine ⟨?_, ?_, ?_⟩
    · rw [fetch_sentLog]
      rfl
    · rw [fetch_outbound]
      rfl
    · rw [fetch_fetchCalls]
      rfl

/-- C5 witness: `c5_begin_sync` at a concrete courier, with `bookmarks=None`
(write stays buffered) and `bookmarks=["b0"]` (flushed and fetched). -/
theorem c5_witness :
    bkTruthy none = false ∧
    Transaction.beginTx c5state false none none none =
      .ok { Transaction.make false none none none with autocommit := false }
        (c5state.writeMsg (.begin (mkExtras false none none none))).2 ∧
    bkTruthy (some ["b0"]) = true ∧
    (Transaction.beginTx c5state false (some ["b0"]) none none).st.sentLog
      = c5state.sentLog ++ (c5state.outbound ++ [.begin (mkExtras false (some ["b0"]) none none)]) ∧
    (Transaction.beginTx c5state false (some ["b0"]) none none).st.outbound = [] ∧
    (Transaction.beginTx c5state false (some ["b0"]) none none).st.fetchCalls
      = c5state.fetchCalls + 1 := by
  have h1 := (c5_begin_sync c5state false none none).1 none rfl
  have h2 := (c5_begin_sync c5state false none none).2 (some ["b0"]) rfl
  exact ⟨rfl, h1, rfl, h2.1, h2.2.1, h2.2.2⟩

/-- C6: over any fetch dispatch sequence from a well-formed courier state
(queued responses are distinct, summary-less, and in range), well-formedness
is preserved and any response that already has a terminal summary is frozen —
its record FIFO and summary never change again, so no record is appended
after the summary arrives and the summary is assigned exactly once (a
summary is only ever assigned to a queued response, which by well-formedness
has none).  A Courier write creates its Response with an empty summary slot
and preserves well-formedness. -/
theorem c6_summary_frozen (s : CourierState) (stop : (Nat → Response) → Bool) (m : CliMsg)
    (hWF : WF s) :
    WF (s.fetch stop).st ∧
    (∀ i, ((s.store i).summary).isSome → (s.fetch stop).st.store i = s.store i) ∧
    WF (s.writeMsg m).2 ∧
    ((s.writeMsg m).2.store (s.writeMsg m).1).summary = none := by
  obtain ⟨hnd, hsum, hlt⟩ := hWF
  have hkey := fetchLoop_WF_frozen stop s.input { s with fetchCalls := s.fetchCalls + 1 }
    ⟨hnd, hsum, hlt⟩
  refine ⟨hkey.1, hkey.2, ?_, by simp [CourierState.writeMsg]⟩
  have hnotin : s.next ∉ s.queue := fun hmem => lt_irrefl _ (hlt _ hmem)
  refine ⟨?_, ?_, ?_⟩
  · simp only [CourierState.writeMsg]
    rw [List.nodup_append]
    exact ⟨hnd, List.nodup_singleton _, by
      intro a ha hb
      rw [List.mem_singleton] at hb
      exact hnotin (hb ▸ ha)⟩
  · intro i hi
    simp only [CourierState.writeMsg] at hi ⊢
    rw [List.mem_append, List.mem_singleton] at hi
    rcases hi with hi | hi
    · have hne : i ≠ s.next := fun he => hnotin (he ▸ hi)
      rw [upd_other _ _ _ _ hne]
      exact hsum i hi
    · subst hi; simp
  · intro i hi
    simp only [CourierState.writeMsg] at hi ⊢
    rw [List.mem_append, List.mem_singleton] at hi
    rcases hi with hi | hi
    · exact lt_trans (hlt i hi) (Nat.lt_succ_self _)
    · subst hi; exact Nat.lt_succ_self _

/-- C6 witness: `c6_summary_frozen` at a concrete well-formed one-request
state. -/
theorem c6_witness :
    WF c6state ∧
    WF (c6state.fetch noStop).st ∧
    (∀ i, ((c6state.store i).summary).isSome →
        (c6state.fetch noStop).st.store i = c6state.store i) ∧
    WF (c6state.writeMsg .reset).2 ∧
    ((c6state.writeMsg .reset).2.store (c6state.writeMsg .reset).1).summary = none := by
  have hWF : WF c6state := by
    refine ⟨by simp [c6state], ?_, ?_⟩
    · intro i hi
      simp [c6state]
    · intro i hi
      simp [c6state] at hi
      simp [c6state, hi]
  have h := c6_summary_frozen c6state noStop .reset hWF
  exact ⟨hWF, h.1, h.2.1, h.2.2.1, h.2.2.2⟩

/-- C7: `Bolt3.ready` is true iff there is no active transaction or the
active transaction's closed flag is true; and when `ready` is false both
`Bolt3.run` and `Bolt3.begin` raise `BoltTransactionError` returning the
connection state entirely unchanged (no transport interaction). -/
theorem c7_ready_guard (b : Bolt3State) :
    (b.ready = true ↔ b.txSlot = none ∨ ∃ t, b.txSlot = some t ∧ t.closed = true) ∧
    (b.ready = false →
      ∀ cypher parameters discard readonly bookmarks timeout metadata,
        b.run cypher parameters discard readonly bookmarks timeout metadata = .txError b) ∧
    (b.ready = false →
      ∀ readonly bookmarks timeout metadata,
        b.beginB readonly bookmarks timeout metadata = .txError b) := by
  refine ⟨?_, ?_, ?_⟩
  · cases htx : b.txSlot with
    | none => simp [Bolt3State.ready, htx]
    | some t =>
        simp only [Bolt3State.ready, htx]
        constructor
        · intro hc
          exact Or.inr ⟨t, rfl, hc⟩
        · rintro (hnone | ⟨u, hu, hc⟩)
          · exact absurd hnone (by simp)
          · rw [Option.some.injEq] at hu
            rw [← hu] at hc
            exact hc
  · intro hready cypher parameters discard readonly bookmarks timeout metadata
    simp [Bolt3State.run, hready]
  · intro hready readonly bookmarks timeout metadata
    simp [Bolt3State.beginB, hready]

/-- C7 witness: `c7_ready_guard` at a connection holding an open transaction:
`ready` is false and both `run` and `begin` fail without touching state. -/
theorem c7_witness :
    c7b.ready = false ∧
    (c7b.ready = true ↔ c7b.txSlot = none ∨ ∃ t, c7b.txSlot = some t ∧ t.closed = true) ∧
    c7b.run "RETURN 1" [] false false none none none = .txError c7b ∧
    c7b.beginB false none none none = .txError c7b := by
  refine ⟨rfl, (c7_ready_guard c7b).1, ?_, ?_⟩
  · exact (c7_ready_guard c7b).2.1 rfl "RETURN 1" [] false false none none none
  · exact (c7_ready_guard c7b).2.2 rfl false none none none

/-- C8 counterexample: `timeout=-1` (supplied but not positive) still produces
a `tx_timeout` entry (of `-1000` ms), because the source guards `_add_extra`
with Python truthiness (`timeout != 0`), refuting "contains `tx_timeout` if
and only if a positive timeout was supplied". -/
theorem c8_counterexample :
    mdLookup (mkExtras false none (some (-1)) none) "tx_timeout" = some (Val.i (-1000)) ∧
    ¬ (0 < (-1 : ℚ)) := by
  constructor
  · norm_num [mkExtras, mdLookup, truncToInt]
  · norm_num

/-- C8 (corrected): extras contain `tx_timeout = int(1000 * timeout)`
(truncation toward zero) iff a NONZERO timeout was supplied (negative
timeouts are also encoded); `timeout = 0.5` encodes as `tx_timeout = 500`;
and `mode = "R"` is present iff `readonly` is true. -/
theorem c8_extras_amended (readonly : Bool) (bookmarks : Option (List String))
    (timeout : Option ℚ) (metadata : Option (List (String × Val))) :
    (mdLookup (mkExtras readonly bookmarks timeout metadata) "tx_timeout" =
       (match timeout with
        | none => none
        | some q => if q = 0 then none else some (Val.i (truncToInt (1000 * q))))) ∧
    (mdLookup (mkExtras readonly bookmarks timeout metadata) "mode" =
       (if readonly then some (Val.s "R") else none)) ∧
    mdLookup (mkExtras false none (some (1 / 2 : ℚ)) none) "tx_timeout" = some (Val.i 500) := by
  refine ⟨?_, ?_, ?_⟩
  · rcases timeout with _ | q
    · cases readonly <;>
        rcases bookmarks with _ | (_ | ⟨b, bs⟩) <;>
        rcases metadata with _ | (_ | ⟨e, es⟩) <;>
        simp [mkExtras, mdLookup]
    · by_cases hq : q = 0 <;>
        cases readonly <;>
        rcases bookmarks with _ | (_ | ⟨b, bs⟩) <;>
        rcases metadata with _ | (_ | ⟨e, es⟩) <;>
        simp [mkExtras, mdLookup, hq]
  · rcases timeout with _ | q
    · cases readonly <;>
        rcases bookmarks with _ | (_ | ⟨b, bs⟩) <;>
        rcases metadata with _ | (_ | ⟨e, es⟩) <;>
        simp [mkExtras, mdLookup]
    · by_cases hq : q = 0 <;>
        cases readonly <;>
        rcases bookmarks with _ | (_ | ⟨b, bs⟩) <;>
        rcases metadata with _ | (_ | ⟨e, es⟩) <;>
        simp [mkExtras, mdLookup, hq]
  · norm_num [mkExtras, mdLookup, truncToInt]

/-- C9 counterexample: `Result.fields` is not cached.  With the header
summary already buffered, the first call drives the Courier's `fetch`
(counter 0 to 1) and so does the SECOND call (counter 1 to 2) while
returning the same value — the source re-reads the header on every call. -/
theorem c9_counterexample :
    (Result.fieldsF c9tx 0 c9state).val = some (Val.list [Val.s "n"]) ∧
    (Result.fieldsF c9tx 0 c9state).st.fetchCalls = 1 ∧
    (Result.fieldsF c9tx 0 (Result.fieldsF c9tx 0 c9state).st).val
      = some (Val.list [Val.s "n"]) ∧
    (Result.fieldsF c9tx 0 (Result.fieldsF c9tx 0 c9state).st).st.fetchCalls = 2 :=
  ⟨rfl, rfl, rfl, rfl⟩

/-- C9 (corrected): `Result.fields` returns the header summary metadata's
"fields" entry, defaulting to the empty tuple, and repeated calls return the
same value — but each call re-resolves the header (`fetchCalls` is bumped
every time); there is no cache. -/
theorem c9_fields_amended (tx : Transaction) (i : Nat) (s : CourierState)
    (md : List (String × Val)) (b : Bool)
    (hsum : (s.store i).summary = some (.summary md b)) :
    ∀ n, Result.fieldsF tx i { s with fetchCalls := n } =
      .ok (mdLookupD md "fields" (Val.list [])) tx { s with fetchCalls := n + 1 } := by
  intro n
  have hstop : stopSummary i ({ s with fetchCalls := n } : CourierState).store = true := by
    simp [stopSummary, hsum]
  have hfetch := fetch_exit { s with fetchCalls := n } (stopSummary i) (Or.inr hstop)
  rw [Result.fieldsF, Result.getHeaderF, summaryViaFail, getSummary, hfetch]
  simp [hsum]

/-- C9 witness: `c9_fields_amended` at a concrete state whose header summary
carries `fields=["n"]`. -/
theorem c9_witness :
    Result.fieldsF c9tx 0 { c9state with fetchCalls := 5 } =
      .ok (mdLookupD [("fields", Val.list [Val.s "n"])] "fields" (Val.list [])) c9tx
        { c9state with fetchCalls := 5 + 1 } :=
  c9_fields_amended c9tx 0 c9state [("fields", Val.list [Val.s "n"])] true rfl 5

/-- C10: when the Transaction's failure slot is already populated, a
`BoltFailure` raised while fetching during async iteration is passed to
`Transaction.fail`, which returns without raising, and `__anext__` then
returns `None` — delivered to the consumer as a yielded element
(`yieldedNone`), not a raised failure and not `StopAsyncIteration`; likewise
`get_header` and `consume` return the null marker instead of a summary. -/
theorem c10_swallowed_failure (tx : Transaction) (f0 : BFailure)
    (htx : tx.failure = some f0) (headId bodyId : Nat) (s : CourierState) :
    (∀ f s2, getRecord bodyId s = .failureOut f s2 →
        Result.anext tx headId bodyId s = .yieldedNone tx s2) ∧
    (∀ g s2, getSummary headId s = .failureOut g s2 →
        Result.getHeaderF tx headId s = .value none tx s2) ∧
    (∀ g s2, getSummary bodyId s = .failureOut g s2 →
        Result.consumeF tx bodyId s = .value none tx s2) := by
  refine ⟨?_, ?_, ?_⟩
  · intro f s2 hG
    rw [Result.anext, hG]
    simp [Transaction.fail, htx]
  · intro g s2 hG
    rw [Result.getHeaderF, summaryViaFail, hG]
    simp [Transaction.fail, htx]
  · intro g s2 hG
    rw [Result.consumeF, summaryViaFail, hG]
    simp [Transaction.fail, htx]

/-- C10 witness: `c10_swallowed_failure` at a concrete transaction with a
populated failure slot and a FAILURE message at the head of the input. -/
theorem c10_witness :
    Result.anext c10tx 0 1 c10state = .yieldedNone c10tx (getRecord 1 c10state).st ∧
    Result.getHeaderF c10tx 0 c10state = .value none c10tx (getSummary 0 c10state).st ∧
    Result.consumeF c10tx 1 c10state = .value none c10tx (getSummary 1 c10state).st := by
  have h := c10_swallowed_failure c10tx _ rfl 0 1 c10state
  exact ⟨h.1 _ _ rfl, h.2.1 _ _ rfl, h.2.2 _ _ rfl⟩

end Bolt3V3
